import Mathlib

/-
Shallow embedding of the dApp-Lucky repository's favorites subsystem and
research pipeline, together with proofs about the claims of the design spec.

Sources embedded:
  - src/unnamed/part_008        (MetaMask favorites store: add/remove/save)
  - src/server/storage.ts       (MemStorage favorites methods)
  - src/server/routes.ts        (POST /api/favorites handler logic)
  - src/client/src/lib/langchain-research.ts  (two ensureValidResearchOutput variants)
  - src/client/src/lib/dappradar-service.ts   (DeepResearchService.researchDapp)
  - src/client/src/lib/openrouter-service.ts  (performClientResearch cascade)
  - src/client/src/lib/dapp-service.ts        (static catalog, fetchRandomDApp)

External I/O (MetaMask provider calls, HTTP calls, LLM invocations) is modeled
by passing each call's outcome as an explicit `Except` argument; `Math.random`
based index selection is modeled by an arbitrary natural number reduced modulo
the list length.  JavaScript strings are Lean `String`, JS numbers used as
positions/percentages are `Int`, absent/undefined fields are `Option`.
-/

/-- ASCII apostrophe, used to build source string literals containing one. -/
def apos : String := String.singleton (Char.ofNat 39)

/-- Stats block of a catalog dApp record (src/client/src/lib/dapp-service.ts). -/
structure DAppStats where
  users : String
  activity : String
  volume : String
  balance : String
deriving DecidableEq

/-- A dApp record as it appears in the static catalog and in favorites snapshots. -/
structure DApp where
  id : String
  name : String
  category : String
  subcategory : String
  description : String
  website : String
  image : String
  chains : List String
  tags : List String
  stats : DAppStats
deriving DecidableEq

/-- Client-side favorite entry: a dApp snapshot paired with its ordering position
(src/unnamed/part_008, the `{ dapp: DApp, position: number }` pairs). -/
structure FavoriteItem where
  dapp : DApp
  position : Int
deriving DecidableEq

namespace Metamask

/-- One record of the `favoritesData` payload built by saveFavoritesToMetaMask. -/
structure StoredFavorite where
  id : String
  name : String
  category : String
  subcategory : String
  description : String
  website : String
  image : String
  position : Int
deriving DecidableEq

/-- The `favoritesData` mapping in saveFavoritesToMetaMask (part_008 lines 82-91). -/
def favoritesData (favorites : List FavoriteItem) : List StoredFavorite :=
  favorites.map fun fav =>
    { id := fav.dapp.id, name := fav.dapp.name, category := fav.dapp.category,
      subcategory := fav.dapp.subcategory, description := fav.dapp.description,
      website := fav.dapp.website, image := fav.dapp.image, position := fav.position }

/-- saveFavoritesToMetaMask (part_008 lines 66-147): builds the payload, tries the
remote eth_setData write; on any failure falls back to writing localStorage, and
returns true when either write succeeds; false only when the fallback also fails.
The two backend writes are suspension points modeled by their outcomes. -/
def saveFavoritesToMetaMask (favorites : List FavoriteItem)
    (remoteWrite : Except String Unit) (localWrite : Except String Unit) : Bool :=
  let _payload := favoritesData favorites
  match remoteWrite with
  | Except.ok _ => true
  | Except.error _ =>
    match localWrite with
    | Except.ok _ => true
    | Except.error _ => false

/-- newPosition computed by addFavorite (part_008 lines 256-259):
Math.max over the current positions plus one, or 1 for an empty list. -/
def newPosition (currentFavorites : List FavoriteItem) : Int :=
  match currentFavorites with
  | [] => 1
  | f :: rest => (rest.foldl (fun m g => max m g.position) f.position) + 1

/-- addFavorite (part_008 lines 249-269) as a transform of the persisted collection:
no-op when an entry with the same id exists, otherwise append at newPosition. -/
def addFavorite (dapp : DApp) (currentFavorites : List FavoriteItem) : List FavoriteItem :=
  if currentFavorites.any (fun fav => fav.dapp.id == dapp.id) then
    currentFavorites
  else
    currentFavorites ++ [{ dapp := dapp, position := newPosition currentFavorites }]

/-- Dense renumbering used by removeFavorite (part_008 lines 277-280), the
`map((fav, index) => position: index + 1)` written as recursion on the list with
the next position carried as an argument (`renumberFrom 1 l` gives positions 1..N). -/
def renumberFrom (n : Int) : List FavoriteItem → List FavoriteItem
  | [] => []
  | f :: rest => { f with position := n } :: renumberFrom (n + 1) rest

/-- removeFavorite (part_008 lines 272-284) as a transform of the persisted
collection: filter out the matching dappId, then renumber positions 1..N. -/
def removeFavorite (dappId : String) (currentFavorites : List FavoriteItem) : List FavoriteItem :=
  renumberFrom 1 (currentFavorites.filter (fun fav => !(fav.dapp.id == dappId)))

end Metamask

namespace Server

/-- A server-side favorite row (src/shared/schema.ts shape as used by MemStorage);
the created-at timestamp is not modeled since no embedded logic reads it. -/
structure Favorite where
  id : Nat
  userId : Nat
  dappId : String
  dappData : String
  position : Int
deriving DecidableEq

/-- Comparison used by MemStorage.getFavorites .sort((a, b) => a.position - b.position). -/
def posLe (a b : Favorite) : Prop := a.position ≤ b.position

instance : DecidableRel posLe := fun a b => inferInstanceAs (Decidable (a.position ≤ b.position))

/-- MemStorage.getFavorites (storage.ts lines 113-117): filter by user, stable sort
by position (JS Array.prototype.sort is stable; insertionSort is a stable sort). -/
def getFavorites (userId : Nat) (favs : List Favorite) : List Favorite :=
  List.insertionSort posLe (favs.filter (fun f => f.userId == userId))

/-- MemStorage.getFavoriteByDappId (storage.ts lines 123-127). -/
def getFavoriteByDappId (userId : Nat) (dappId : String) (favs : List Favorite) :
    Option Favorite :=
  favs.find? (fun f => f.userId == userId && f.dappId == dappId)

/-- MemStorage.createFavorite (storage.ts lines 129-135): insert a new row with a
fresh id taken from the id counter. -/
def createFavorite (favs : List Favorite) (id : Nat) (userId : Nat)
    (dappId dappData : String) (position : Int) : List Favorite :=
  favs ++ [{ id := id, userId := userId, dappId := dappId, dappData := dappData,
             position := position }]

/-- MemStorage.deleteFavorite (storage.ts lines 137-139): Map.delete by row id,
returning whether a row was removed. -/
def deleteFavorite (id : Nat) (favs : List Favorite) : List Favorite × Bool :=
  (favs.filter (fun f => !(f.id == id)), favs.any (fun f => f.id == id))

/-- One step of MemStorage.updateFavoritePositions: set the position of the row
whose id matches the pair, leaving every other row untouched. -/
def applyPair (favs : List Favorite) (p : Nat × Int) : List Favorite :=
  favs.map (fun f => if f.id == p.1 then { f with position := p.2 } else f)

/-- MemStorage.updateFavoritePositions (storage.ts lines 141-155): iterate the
supplied (id, position) pairs, updating each matching row and silently skipping
ids with no matching row; always reports success. -/
def updateFavoritePositions (favs : List Favorite) (positions : List (Nat × Int)) :
    List Favorite × Bool :=
  (positions.foldl applyPair favs, true)

/-- Per-row residue of updateFavoritePositions: the effect of the whole pair list
on a single row (used to characterize the bulk update). -/
def applyPairs (positions : List (Nat × Int)) (f : Favorite) : Favorite :=
  positions.foldl (fun g p => if g.id == p.1 then { g with position := p.2 } else g) f

/-- lastPosition computed by the POST /api/favorites handler (routes.ts lines 199-201):
max over the current positions, or 0 when there are none. -/
def routeLastPosition (currentFavorites : List Favorite) : Int :=
  match currentFavorites with
  | [] => 0
  | f :: rest => rest.foldl (fun m g => max m g.position) f.position

/-- The POST /api/favorites handler (routes.ts lines 176-216) split at its suspension
points: the duplicate check and the position computation read `snapshot` (the state
at the time the handler performed its reads), while the insert commits against
`store` (the state at commit time).  In the purely sequential case snapshot = store. -/
def routeAddFavorite (snapshot : List Favorite) (store : List Favorite) (newId : Nat)
    (dappId dappData : String) : List Favorite :=
  match getFavoriteByDappId 1 dappId snapshot with
  | some _ => store
  | none =>
    let lastPosition := routeLastPosition (getFavorites 1 snapshot)
    createFavorite store newId 1 dappId dappData (lastPosition + 1)

/-- Two POST /api/favorites requests interleaved around the read suspension point:
both handlers read the empty snapshot before either insert commits, exactly as the
event loop permits since the reads and the insert are separate awaited storage calls. -/
def interleavedDoubleAdd : List Favorite :=
  let s0 : List Favorite := []
  let s1 := routeAddFavorite s0 s0 1 "uniswap" "uniswap-data"
  routeAddFavorite s0 s1 2 "aave" "aave-data"

end Server

namespace Research

/-- One entry of the developments timeline in a research result. -/
structure Development where
  date : String
  description : String
deriving DecidableEq

/-- Community sentiment block of a research result. -/
structure Sentiment where
  positive : Int
  count : Option Int
deriving DecidableEq

/-- The canonical DeepResearchOutput shape (langchain-research.ts zod schema). -/
structure DeepResearchOutput where
  overview : String
  features : List String
  developments : List Development
  sentiment : Sentiment
  competitors : List String
  strengths : List String
  weaknesses : List String
  futureOutlook : String
deriving DecidableEq

/-- A loosely-typed research blob (Partial DeepResearchOutput): every field may be
absent (JS undefined/null is `none`). -/
structure RawResearch where
  overview : Option String := none
  features : Option (List String) := none
  developments : Option (List Development) := none
  sentiment : Option Sentiment := none
  competitors : Option (List String) := none
  strengths : Option (List String) := none
  weaknesses : Option (List String) := none
  futureOutlook : Option String := none
deriving DecidableEq

/-- A raw JavaScript value reaching the normalizer: the null value, a plain string,
or an object with the research fields. -/
inductive RawInput where
  | null : RawInput
  | str : String → RawInput
  | obj : RawResearch → RawInput
deriving DecidableEq

/-- JS `x || d` for string-valued fields: undefined, null and the empty string are
all falsy and replaced by the default. -/
def jsOrStr (v : Option String) (d : String) : String :=
  match v with
  | none => d
  | some s => if s == "" then d else s

/-- True exactly when the normalizer call returned a result whose overview is a
non-empty string (false when it raised instead of returning). -/
def returnsNonemptyOverview (e : Except String DeepResearchOutput) : Bool :=
  match e with
  | Except.ok o => !(o.overview == "")
  | Except.error _ => false

/-- sentiment.positive of a returned result, none when the call raised. -/
def okSentimentPositive (e : Except String DeepResearchOutput) : Option Int :=
  match e with
  | Except.ok o => some o.sentiment.positive
  | Except.error _ => none

end Research

namespace ResearchA

open Research

/-- Literal overview fallback of the first ensureValidResearchOutput variant. -/
def fallbackOverview : String :=
  "情報が十分に得られませんでした。別のdAppを試すか、API設定を確認してください。"

/-- Literal futureOutlook fallback of the first variant. -/
def fallbackOutlook : String := "将来の見通しについての情報は限られています。"

/-- ensureValidResearchOutput, first variant (client langchain-research.ts lines
31-42): `data.overview || fallback` etc.  Field access on the JS null value raises
a TypeError instead of returning; field access on a string value yields undefined
for every research field, so all defaults apply. -/
def ensureValidResearchOutput : RawInput → Except String DeepResearchOutput
  | RawInput.null => Except.error "TypeError: Cannot read properties of null"
  | RawInput.str _ => Except.ok
      { overview := fallbackOverview, features := [], developments := [],
        sentiment := { positive := 50, count := none }, competitors := [],
        strengths := [], weaknesses := [], futureOutlook := fallbackOutlook }
  | RawInput.obj data => Except.ok
      { overview := jsOrStr data.overview fallbackOverview,
        features := data.features.getD [],
        developments := data.developments.getD [],
        sentiment := data.sentiment.getD { positive := 50, count := none },
        competitors := data.competitors.getD [],
        strengths := data.strengths.getD [],
        weaknesses := data.weaknesses.getD [],
        futureOutlook := jsOrStr data.futureOutlook fallbackOutlook }

end ResearchA

namespace ResearchB

open Research

/-- ensureValidResearchOutput, second variant (client langchain-research.ts lines
308-319), with its own literal defaults. -/
def ensureValidResearchOutput : RawInput → Except String DeepResearchOutput
  | RawInput.null => Except.error "TypeError: Cannot read properties of null"
  | RawInput.str _ => Except.ok
      { overview := "No overview available.",
        features := ["Information not available"],
        developments := [{ date := "Current",
                           description := "No recent developments information available." }],
        sentiment := { positive := 50, count := none }, competitors := [],
        strengths := [], weaknesses := [], futureOutlook := "" }
  | RawInput.obj data => Except.ok
      { overview := jsOrStr data.overview "No overview available.",
        features := data.features.getD ["Information not available"],
        developments := data.developments.getD
          [{ date := "Current",
             description := "No recent developments information available." }],
        sentiment := data.sentiment.getD { positive := 50, count := none },
        competitors := data.competitors.getD [],
        strengths := data.strengths.getD [],
        weaknesses := data.weaknesses.getD [],
        futureOutlook := jsOrStr data.futureOutlook "" }

end ResearchB

namespace DappRadar

open Research

/-- DeepResearchService.getFallbackData (dappradar-service.ts lines 426-437). -/
def getFallbackData : DeepResearchOutput :=
  { overview := "We couldn" ++ apos ++
      "t retrieve comprehensive data at this time. Please try again later.",
    features := ["Data retrieval failed"],
    developments := [{ date := "Unknown", description := "Data retrieval failed" }],
    sentiment := { positive := 0, count := none },
    competitors := ["Data retrieval failed"],
    strengths := ["Data retrieval failed"],
    weaknesses := ["Data retrieval failed"],
    futureOutlook := "We couldn" ++ apos ++
      "t retrieve data at this time. Please try again later." }

/-- DeepResearchService.researchDapp (dappradar-service.ts lines 292-328): runs the
research chain and catches any error, converting it into the fallback data.  The
chain invocation (model setup, web search, LLM calls) is modeled by its outcome. -/
def researchDapp (chainResult : Except String DeepResearchOutput) : DeepResearchOutput :=
  match chainResult with
  | Except.ok r => r
  | Except.error _ => getFallbackData

end DappRadar

namespace OpenRouter

open Research

/-- The ResearchResponse shape returned by the client research entry points. -/
structure ResearchResponse where
  research : String
  structured : Option DeepResearchOutput
deriving DecidableEq

/-- The text rendering of a structured output built inside performClientResearch
(openrouter-service.ts lines 89-135): per-section markdown assembled and joined,
with empty sections filtered out. -/
def formatStructured (o : DeepResearchOutput) : String :=
  let overviewSection := if o.overview == "" then "No overview available." else o.overview
  let featuresSection :=
    if o.features.length > 0 then
      "## Key Features\n\n" ++ String.intercalate "\n" (o.features.map (fun f => "- " ++ f))
    else ""
  let developmentsSection :=
    if o.developments.length > 0 then
      "## Recent Developments\n\n" ++ String.intercalate "\n"
        (o.developments.map (fun d => "- **" ++ d.date ++ "**: " ++ d.description))
    else ""
  let sentimentSection :=
    "## Community Sentiment\n\n" ++ toString o.sentiment.positive ++ "% Positive" ++
      (match o.sentiment.count with
       | some c => if c == 0 then "" else
           " (based on approximately " ++ toString c ++ " mentions)"
       | none => "")
  let competitorsSection :=
    if o.competitors.length > 0 then
      "## Competitors\n\n" ++ String.intercalate "\n" (o.competitors.map (fun c => "- " ++ c))
    else ""
  let strengthsWeaknessesSection :=
    if o.strengths.length > 0 || o.weaknesses.length > 0 then
      "## Strengths & Weaknesses\n\n" ++
        (if o.strengths.length > 0 then
          "### Strengths\n\n" ++
            String.intercalate "\n" (o.strengths.map (fun s => "- " ++ s)) ++ "\n\n"
         else "") ++
        (if o.weaknesses.length > 0 then
          "### Weaknesses\n\n" ++
            String.intercalate "\n" (o.weaknesses.map (fun w => "- " ++ w))
         else "")
    else ""
  let outlookSection :=
    if o.futureOutlook == "" then "" else "## Future Outlook\n\n" ++ o.futureOutlook
  String.intercalate "\n\n"
    (([ "# Overview", overviewSection, featuresSection, developmentsSection,
        sentimentSection, competitorsSection, strengthsWeaknessesSection,
        outlookSection ]).filter (fun s => !(s == "")))

/-- performDirectApiResearch (openrouter-service.ts lines 174-283): the last-resort
direct HTTP call; its own catch converts any error into an error-message response,
so this stage never throws. -/
def performDirectApiResearch (direct : Except String String) : ResearchResponse :=
  match direct with
  | Except.ok content => { research := content, structured := none }
  | Except.error errorMessage =>
    { research := "Error performing research: " ++ errorMessage ++
        "\n\nPlease check your API settings and try again.", structured := none }

/-- The structured-output and simple-text stages of the cascade: structured result
formatted on success; on failure simple text research; if the simple text stage also
throws, control reaches the outer catch which calls the direct API fallback. -/
def structuredOrText (structuredR : Except String DeepResearchOutput)
    (simpleText : Except String String) (direct : Except String String) : ResearchResponse :=
  match structuredR with
  | Except.ok out => { research := formatStructured out, structured := some out }
  | Except.error _ =>
    match simpleText with
    | Except.ok t => { research := t, structured := none }
    | Except.error _ => performDirectApiResearch direct

/-- performClientResearch (openrouter-service.ts lines 44-168): agent research first
(an empty agent result counts as failure), then structured output, then simple text,
then the direct API call.  Each stage is modeled by its outcome; the function is
total, so no exception ever propagates to the caller. -/
def performClientResearch (agent : Except String String)
    (structuredR : Except String DeepResearchOutput)
    (simpleText : Except String String)
    (direct : Except String String) : ResearchResponse :=
  match agent with
  | Except.ok s =>
    if s.length > 0 then { research := s, structured := none }
    else structuredOrText structuredR simpleText direct
  | Except.error _ => structuredOrText structuredR simpleText direct

end OpenRouter

namespace DappService

/-- Catalog record for Uniswap (dapp-service.ts lines 5-21). -/
def uniswap : DApp :=
  { id := "uniswap", name := "Uniswap", category := "DeFi", subcategory := "Exchange",
    description := "Uniswap is a decentralized cryptocurrency exchange that uses an automated market-making system instead of a traditional order book. It allows users to trade cryptocurrencies without an intermediary, directly from their own wallets.",
    website := "https://uniswap.org",
    image := "https://upload.wikimedia.org/wikipedia/commons/e/e7/Uniswap_Logo.svg",
    chains := ["Ethereum", "Polygon", "Arbitrum", "Optimism"],
    tags := ["DEX", "AMM", "Swap", "Liquidity"],
    stats := { users := "2.3M", activity := "High", volume := "$234M", balance := "$2.1B" } }

/-- Catalog record for OpenSea (dapp-service.ts lines 22-38). -/
def opensea : DApp :=
  { id := "opensea", name := "OpenSea", category := "NFT", subcategory := "Marketplace",
    description := "OpenSea is the world" ++ apos ++ "s first and largest NFT marketplace where you can discover, collect, and sell extraordinary NFTs on multiple blockchains.",
    website := "https://opensea.io",
    image := "https://storage.googleapis.com/opensea-static/Logomark/OpenSea-Full-Logo%20(light).svg",
    chains := ["Ethereum", "Polygon", "Solana"],
    tags := ["NFT", "Marketplace", "Art", "Gaming"],
    stats := { users := "4.1M", activity := "Medium", volume := "$12M", balance := "$430M" } }

/-- Catalog record for Aave (dapp-service.ts lines 39-55). -/
def aave : DApp :=
  { id := "aave", name := "Aave", category := "DeFi", subcategory := "Lending",
    description := "Aave is a decentralized non-custodial liquidity protocol where users can participate as depositors or borrowers. Depositors provide liquidity to the market to earn passive income, while borrowers can borrow in either an overcollateralized or undercollateralized fashion.",
    website := "https://aave.com",
    image := "https://cryptologos.cc/logos/aave-aave-logo.svg",
    chains := ["Ethereum", "Polygon", "Avalanche", "Arbitrum"],
    tags := ["Lending", "Borrowing", "Interest", "Flash Loans"],
    stats := { users := "980K", activity := "Medium", volume := "$124M", balance := "$3.9B" } }

/-- Catalog record for MakerDAO (dapp-service.ts lines 56-72). -/
def makerdao : DApp :=
  { id := "makerdao", name := "MakerDAO", category := "DeFi", subcategory := "Stablecoins",
    description := "MakerDAO is a decentralized organization dedicated to bringing stability to the cryptocurrency economy. The Maker Protocol employs a two-token system, DAI, a collateral-backed stablecoin, and MKR, a governance token.",
    website := "https://makerdao.com",
    image := "https://cryptologos.cc/logos/maker-mkr-logo.svg",
    chains := ["Ethereum"],
    tags := ["Stablecoin", "DAI", "Governance", "CDP"],
    stats := { users := "720K", activity := "Medium", volume := "$89M", balance := "$5.2B" } }

/-- Catalog record for Axie Infinity (dapp-service.ts lines 73-89). -/
def axieInfinity : DApp :=
  { id := "axie-infinity", name := "Axie Infinity", category := "GameFi",
    subcategory := "Play-to-Earn",
    description := "Axie Infinity is a blockchain-based trading and battling game that is partially owned and operated by its players. The Axie Infinity universe revolves around breeding, raising, battling, and trading fantasy creatures called Axies.",
    website := "https://axieinfinity.com",
    image := "https://cryptologos.cc/logos/axie-infinity-axs-logo.svg",
    chains := ["Ethereum", "Ronin"],
    tags := ["Gaming", "NFT", "Play-to-Earn", "Metaverse"],
    stats := { users := "2.8M", activity := "Medium", volume := "$34M", balance := "$350M" } }

/-- Catalog record for Compound (dapp-service.ts lines 90-106). -/
def compound : DApp :=
  { id := "compound", name := "Compound", category := "DeFi", subcategory := "Lending",
    description := "Compound is an algorithmic, autonomous interest rate protocol built for developers, to unlock a universe of open financial applications.",
    website := "https://compound.finance",
    image := "https://cryptologos.cc/logos/compound-comp-logo.svg",
    chains := ["Ethereum"],
    tags := ["Lending", "Interest", "DeFi", "Yield"],
    stats := { users := "630K", activity := "Medium", volume := "$45M", balance := "$1.8B" } }

/-- Catalog record for Decentraland (dapp-service.ts lines 107-123). -/
def decentraland : DApp :=
  { id := "decentraland", name := "Decentraland", category := "Metaverse",
    subcategory := "Virtual World",
    description := "Decentraland is a decentralized virtual reality platform powered by the Ethereum blockchain. Users can create, experience, and monetize content and applications in the first-ever virtual world entirely owned by its users.",
    website := "https://decentraland.org",
    image := "https://cryptologos.cc/logos/decentraland-mana-logo.svg",
    chains := ["Ethereum"],
    tags := ["Metaverse", "Virtual Land", "NFT", "Gaming"],
    stats := { users := "1.2M", activity := "Low", volume := "$5M", balance := "$210M" } }

/-- Catalog record for PancakeSwap (dapp-service.ts lines 124-140). -/
def pancakeswap : DApp :=
  { id := "pancakeswap", name := "PancakeSwap", category := "DeFi", subcategory := "Exchange",
    description := "PancakeSwap is a decentralized exchange native to BNB Chain, allowing users to trade cryptocurrencies, provide liquidity, stake tokens, and participate in lottery and prediction games.",
    website := "https://pancakeswap.finance",
    image := "https://cryptologos.cc/logos/pancakeswap-cake-logo.svg",
    chains := ["BNB Chain", "Ethereum", "Arbitrum"],
    tags := ["DEX", "AMM", "Swap", "Yield Farming"],
    stats := { users := "3.5M", activity := "High", volume := "$178M", balance := "$1.5B" } }

/-- Catalog record for ENS (dapp-service.ts lines 141-157). -/
def ens : DApp :=
  { id := "ens", name := "ENS", category := "Infrastructure", subcategory := "Naming",
    description := "Ethereum Name Service is a distributed, open, and extensible naming system based on the Ethereum blockchain. ENS translates human-readable names like " ++ apos ++ "alice.eth" ++ apos ++ " to machine-readable identifiers including Ethereum addresses.",
    website := "https://ens.domains",
    image := "https://cryptologos.cc/logos/ethereum-name-service-ens-logo.svg",
    chains := ["Ethereum"],
    tags := ["Domain Names", "Identity", "Web3", "DNS"],
    stats := { users := "840K", activity := "Medium", volume := "$12M", balance := "$180M" } }

/-- Catalog record for Lens Protocol (dapp-service.ts lines 158-174). -/
def lensProtocol : DApp :=
  { id := "lens-protocol", name := "Lens Protocol", category := "Social",
    subcategory := "Network",
    description := "Lens Protocol is a decentralized social graph that allows creators to own their content and connections with their community. It provides the infrastructure for social media applications where users truly own their data.",
    website := "https://lens.xyz",
    image := "https://lens.xyz/static/images/lens-logo-dark.svg",
    chains := ["Polygon"],
    tags := ["Social", "Content", "Profiles", "Web3"],
    stats := { users := "450K", activity := "Medium", volume := "$3M", balance := "$65M" } }

/-- The static catalog (dapp-service.ts lines 4-175). -/
def dapps : List DApp :=
  [uniswap, opensea, aave, makerdao, axieInfinity, compound, decentraland,
   pancakeswap, ens, lensProtocol]

/-- The category list exported for filtering (dapp-service.ts lines 178-186). -/
def dappCategories : List String :=
  ["All", "DeFi", "NFT", "GameFi", "Metaverse", "Infrastructure", "Social"]

/-- The category filter of fetchRandomDApp (dapp-service.ts lines 193-198): filter
only when a category is supplied, truthy (non-empty) and not the literal "All". -/
def filteredByCategory (category : Option String) : List DApp :=
  match category with
  | some c =>
    if !(c == "") && !(c == "All") then dapps.filter (fun d => d.category == c) else dapps
  | none => dapps

/-- The selection pool of fetchRandomDApp after the empty-filter fallback
(dapp-service.ts lines 200-203). -/
def filteredDapps (category : Option String) : List DApp :=
  if (filteredByCategory category).isEmpty then dapps else filteredByCategory category

/-- fetchRandomDApp (dapp-service.ts lines 189-208): pick a uniformly random index
into the pool; `Math.floor(Math.random() * length)` is modeled by an arbitrary
natural number reduced modulo the pool length. -/
def fetchRandomDApp (category : Option String) (randomIndex : Nat) : DApp :=
  (filteredDapps category).getD (randomIndex % (filteredDapps category).length) uniswap

end DappService

/-- Stats block of the small sample records used for concrete test inputs. -/
def sampleStats : DAppStats :=
  { users := "", activity := "", volume := "", balance := "" }

/-- A small dApp record used as concrete test input in witness theorems. -/
def sampleDapp (i : String) : DApp :=
  { id := i, name := i, category := "DeFi", subcategory := "", description := "",
    website := "", image := "", chains := [], tags := [], stats := sampleStats }

/-
Helper lemmas about the embedded operations.
-/

theorem foldl_max_init_le (l : List FavoriteItem) (init : Int) :
    init ≤ l.foldl (fun m g => max m g.position) init := by
  induction l generalizing init with
  | nil => exact le_refl _
  | cons g rest ih =>
    exact le_trans (le_max_left init g.position) (ih (max init g.position))

theorem foldl_max_mem_le (l : List FavoriteItem) (init : Int) :
    ∀ f ∈ l, f.position ≤ l.foldl (fun m g => max m g.position) init := by
  induction l generalizing init with
  | nil => intro f hf; cases hf
  | cons g rest ih =>
    intro f hf
    rcases List.mem_cons.mp hf with h1 | h2
    · subst h1
      exact le_trans (le_max_right init f.position) (foldl_max_init_le rest _)
    · exact ih (max init g.position) f h2

theorem foldl_max_attained (l : List FavoriteItem) (init : Int) :
    l.foldl (fun m g => max m g.position) init = init ∨
    ∃ f ∈ l, l.foldl (fun m g => max m g.position) init = f.position := by
  induction l generalizing init with
  | nil => exact Or.inl rfl
  | cons g rest ih =>
    rcases ih (max init g.position) with hEq | ⟨f, hf, hEq⟩
    · rcases max_choice init g.position with hm | hm
      · exact Or.inl (by rw [List.foldl_cons, hEq, hm])
      · exact Or.inr ⟨g, List.mem_cons_self _ _, by rw [List.foldl_cons, hEq, hm]⟩
    · exact Or.inr ⟨f, List.mem_cons_of_mem _ hf, by rw [List.foldl_cons, hEq]⟩

theorem renumberFrom_map_dapp (n : Int) (l : List FavoriteItem) :
    (Metamask.renumberFrom n l).map (fun f => f.dapp) = l.map (fun f => f.dapp) := by
  induction l generalizing n with
  | nil => rfl
  | cons f rest ih => simp [Metamask.renumberFrom, ih]

theorem renumberFrom_map_position (n : Int) (l : List FavoriteItem) :
    (Metamask.renumberFrom n l).map (fun f => f.position)
      = (List.range l.length).map (fun (i : Nat) => n + (i : Int)) := by
  induction l generalizing n with
  | nil => rfl
  | cons f rest ih =>
    rw [Metamask.renumberFrom, List.map_cons, ih (n + 1), List.length_cons,
      List.range_succ_eq_map, List.map_cons, List.map_map]
    refine congrArg₂ List.cons (by simp) (List.map_congr_left ?_)
    intro i _
    simp only [Function.comp_apply, Nat.succ_eq_add_one]
    push_cast
    ring

theorem applyPairs_id_eq (positions : List (Nat × Int)) (f : Server.Favorite) :
    (Server.applyPairs positions f).id = f.id := by
  induction positions generalizing f with
  | nil => rfl
  | cons p ps ih =>
    rw [Server.applyPairs, List.foldl_cons]
    by_cases h : (f.id == p.1) = true
    · rw [if_pos h]; exact ih _
    · rw [if_neg h]; exact ih _

theorem foldl_applyPair_eq_map (positions : List (Nat × Int)) (favs : List Server.Favorite) :
    positions.foldl Server.applyPair favs = favs.map (Server.applyPairs positions) := by
  induction positions generalizing favs with
  | nil => exact (List.map_congr_left (fun f _ => rfl)).symm.trans (List.map_id favs) |>.symm
  | cons p ps ih =>
    rw [List.foldl_cons, ih (Server.applyPair favs p), Server.applyPair, List.map_map]
    exact List.map_congr_left (fun f _ => rfl)

theorem jsOrStr_ne_empty (v : Option String) (d : String) (hd : (d == "") = false) :
    (Research.jsOrStr v d == "") = false := by
  cases v with
  | none => exact hd
  | some s =>
    by_cases hs : (s == "") = true
    · simp only [Research.jsOrStr, hs, if_true]; exact hd
    · simp only [Research.jsOrStr, hs, if_false]
      exact Bool.eq_false_iff.mpr (fun h => hs h)

theorem dapps_ne_nil : DappService.dapps ≠ [] := by
  simp [DappService.dapps]

theorem filteredByCategory_subset (c : Option String) (d : DApp)
    (h : d ∈ DappService.filteredByCategory c) : d ∈ DappService.dapps := by
  cases c with
  | none => exact h
  | some s =>
    rw [DappService.filteredByCategory] at h
    cases hb : (!(s == "") && !(s == "All")) with
    | true =>
      rw [hb, if_pos rfl] at h
      exact List.mem_of_mem_filter h
    | false =>
      rw [hb, if_neg Bool.false_ne_true] at h
      exact h

theorem filteredDapps_ne_nil (c : Option String) : DappService.filteredDapps c ≠ [] := by
  rw [DappService.filteredDapps]
  cases hb : (DappService.filteredByCategory c).isEmpty with
  | true => rw [if_pos rfl]; exact dapps_ne_nil
  | false =>
    rw [if_neg Bool.false_ne_true]
    exact fun hnil => by rw [hnil] at hb; cases hb

theorem filteredDapps_subset (c : Option String) (d : DApp)
    (h : d ∈ DappService.filteredDapps c) : d ∈ DappService.dapps := by
  rw [DappService.filteredDapps] at h
  cases hb : (DappService.filteredByCategory c).isEmpty with
  | true => rw [hb, if_pos rfl] at h; exact h
  | false =>
    rw [hb, if_neg Bool.false_ne_true] at h
    exact filteredByCategory_subset c d h

theorem fetchRandomDApp_mem_pool (c : Option String) (k : Nat) :
    DappService.fetchRandomDApp c k ∈ DappService.filteredDapps c := by
  have h0 : 0 < (DappService.filteredDapps c).length :=
    List.length_pos.mpr (filteredDapps_ne_nil c)
  have hk : k % (DappService.filteredDapps c).length < (DappService.filteredDapps c).length :=
    Nat.mod_lt _ h0
  rw [DappService.fetchRandomDApp, List.getD_eq_getElem _ _ hk]
  exact List.getElem_mem hk

/-
Claim theorems.
-/

/-- C1: the POST /api/favorites handler computes the new position from a snapshot
with no retry loop and no ConcurrentModification error, so two adds interleaved
around the read suspension point on an initially empty collection BOTH conclude
position 1: the persisted collection has duplicate positions, violating the
claimed total-order invariant.  This theorem evaluates the embedded handler at
that failing interleaving. -/
theorem concurrent_add_duplicate_positions :
    (Server.getFavorites 1 Server.interleavedDoubleAdd).map (fun f => (f.dappId, f.position))
        = [("uniswap", 1), ("aave", 1)] ∧
    ¬ ((Server.getFavorites 1 Server.interleavedDoubleAdd).map (fun f => f.position)).Nodup := by
  decide

/-- C2: addFavorite is idempotent on the persisted collection: adding the same dApp
twice yields the same collection as adding it once, and when an entry with the same
dApp identifier already exists the add no-ops, returning the collection unchanged. -/
theorem add_favorite_idempotent :
    ∀ (d : DApp) (cur : List FavoriteItem),
      Metamask.addFavorite d (Metamask.addFavorite d cur) = Metamask.addFavorite d cur ∧
      (cur.any (fun fav => fav.dapp.id == d.id) = true → Metamask.addFavorite d cur = cur) := by
  intro d cur
  constructor
  · by_cases h : cur.any (fun fav => fav.dapp.id == d.id) = true
    · simp [Metamask.addFavorite, h]
    · have h2 : cur.any (fun fav => fav.dapp.id == d.id) = false := Bool.eq_false_iff.mpr h
      simp [Metamask.addFavorite, h2, List.any_append]
  · intro h
    simp [Metamask.addFavorite, h]

/-- Witness for C2: adding an already-present dApp returns the collection unchanged. -/
theorem add_favorite_idempotent_witness :
    Metamask.addFavorite (sampleDapp "a") [{ dapp := sampleDapp "a", position := 1 }]
      = [{ dapp := sampleDapp "a", position := 1 }] :=
  (add_favorite_idempotent (sampleDapp "a")
    [{ dapp := sampleDapp "a", position := 1 }]).2 (by decide)

/-- C3 counterexample: updateFavoritePositions applied to a store holding only the
favorite with id 1 and a supplied pair list naming ids 1 and 99 (a set not equal to
the current id set) reports success and modifies the collection — it does not fail
with InvalidReorder and does not leave the collection unchanged, refuting the claim
as stated. -/
theorem reorder_tolerates_mismatched_ids :
    (Server.updateFavoritePositions
        [{ id := 1, userId := 1, dappId := "uniswap", dappData := "d", position := 1 }]
        [(1, 7), (99, 1)]).2 = true ∧
    (Server.updateFavoritePositions
        [{ id := 1, userId := 1, dappId := "uniswap", dappData := "d", position := 1 }]
        [(1, 7), (99, 1)]).1
      ≠ [{ id := 1, userId := 1, dappId := "uniswap", dappData := "d", position := 1 }] := by
  decide

/-- C3 amended: updateFavoritePositions always reports success and applies each
supplied (id, position) pair to the row with that id — a full permutation is
therefore applied exactly as supplied, but unknown ids are silently skipped and
unmentioned rows left untouched, so mismatched identifier sets are partially
applied rather than rejected; row identities are never changed. -/
theorem reorder_applies_each_supplied_pair :
    ∀ (favs : List Server.Favorite) (positions : List (Nat × Int)),
      (Server.updateFavoritePositions favs positions).2 = true ∧
      (Server.updateFavoritePositions favs positions).1
          = favs.map (Server.applyPairs positions) ∧
      ((Server.updateFavoritePositions favs positions).1).map (fun f => f.id)
          = favs.map (fun f => f.id) := by
  intro favs positions
  refine ⟨rfl, foldl_applyPair_eq_map positions favs, ?_⟩
  rw [show (Server.updateFavoritePositions favs positions).1
        = favs.map (Server.applyPairs positions) from foldl_applyPair_eq_map positions favs,
    List.map_map]
  exact List.map_congr_left (fun f _ => applyPairs_id_eq positions f)

/-- C4 counterexample: on a collection whose single entry holds position 2,
removing an id that matches nothing still renumbers the survivor to position 1,
so the collection is NOT returned unchanged, refuting the claim as stated. -/
theorem remove_renumbers_on_no_match :
    Metamask.removeFavorite "b" [{ dapp := sampleDapp "a", position := 2 }]
      ≠ [{ dapp := sampleDapp "a", position := 2 }] := by
  decide

/-- C4 amended: removeFavorite deletes the matching entries and renumbers the
survivors densely 1..N preserving their previous relative order; when no entry
matches, the dApp sequence is preserved unchanged but positions are still
renumbered densely, so the collection itself is unchanged only when its positions
were already 1..N in order. -/
theorem remove_favorite_spec :
    ∀ (dappId : String) (cur : List FavoriteItem),
      (Metamask.removeFavorite dappId cur).map (fun f => f.dapp)
          = (cur.filter (fun f => !(f.dapp.id == dappId))).map (fun f => f.dapp) ∧
      (Metamask.removeFavorite dappId cur).map (fun f => f.position)
          = (List.range (cur.filter (fun f => !(f.dapp.id == dappId))).length).map
              (fun (i : Nat) => (i : Int) + 1) ∧
      (cur.all (fun f => !(f.dapp.id == dappId)) = true →
        (Metamask.removeFavorite dappId cur).map (fun f => f.dapp)
          = cur.map (fun f => f.dapp)) := by
  intro dappId cur
  refine ⟨renumberFrom_map_dapp 1 _, ?_, ?_⟩
  · rw [Metamask.removeFavorite, renumberFrom_map_position]
    exact List.map_congr_left (fun i _ => by omega)
  · intro hall
    have hfil : cur.filter (fun f => !(f.dapp.id == dappId)) = cur :=
      List.filter_eq_self.mpr (List.all_eq_true.mp hall)
    rw [Metamask.removeFavorite, renumberFrom_map_dapp, hfil]

/-- Witness for C4: removing an id that matches nothing preserves the dApp sequence. -/
theorem remove_favorite_spec_witness :
    (Metamask.removeFavorite "x" [{ dapp := sampleDapp "a", position := 1 }]).map
        (fun f => f.dapp)
      = ([{ dapp := sampleDapp "a", position := 1 }] : List FavoriteItem).map
          (fun f => f.dapp) :=
  (remove_favorite_spec "x" [{ dapp := sampleDapp "a", position := 1 }]).2.2 (by decide)

/-- C5: when the dApp is not yet present, addFavorite appends the new entry with
position 1 on an empty collection and with the maximum existing position plus one
otherwise, which in particular is strictly greater than every existing position. -/
theorem add_favorite_append_position :
    ∀ (d : DApp) (cur : List FavoriteItem),
      cur.any (fun fav => fav.dapp.id == d.id) = false →
      Metamask.addFavorite d cur
          = cur ++ [{ dapp := d, position := Metamask.newPosition cur }] ∧
      (cur = [] → Metamask.newPosition cur = 1) ∧
      (∀ f ∈ cur, f.position < Metamask.newPosition cur) ∧
      (cur ≠ [] → ∃ f ∈ cur, Metamask.newPosition cur = f.position + 1) := by
  intro d cur h
  refine ⟨by simp [Metamask.addFavorite, h], ?_, ?_, ?_⟩
  · intro hc; subst hc; rfl
  · intro f hf
    cases cur with
    | nil => cases hf
    | cons g rest =>
      simp only [Metamask.newPosition]
      have hle : f.position ≤ rest.foldl (fun m g2 => max m g2.position) g.position := by
        rcases List.mem_cons.mp hf with h1 | h2
        · subst h1; exact foldl_max_init_le rest f.position
        · exact foldl_max_mem_le rest g.position f h2
      omega
  · intro hne
    cases cur with
    | nil => exact absurd rfl hne
    | cons g rest =>
      rcases foldl_max_attained rest g.position with hEq | ⟨f, hf, hEq⟩
      · exact ⟨g, List.mem_cons_self g rest, by simp only [Metamask.newPosition]; rw [hEq]⟩
      · exact ⟨f, List.mem_cons_of_mem g hf, by simp only [Metamask.newPosition]; rw [hEq]⟩

/-- Witness for C5: adding a second dApp to a one-entry collection appends it at
the computed next position. -/
theorem add_favorite_append_position_witness :
    Metamask.addFavorite (sampleDapp "b") [{ dapp := sampleDapp "a", position := 1 }]
      = [{ dapp := sampleDapp "a", position := 1 }]
        ++ [{ dapp := sampleDapp "b",
              position := Metamask.newPosition
                [{ dapp := sampleDapp "a", position := 1 }] }] :=
  (add_favorite_append_position (sampleDapp "b")
    [{ dapp := sampleDapp "a", position := 1 }] (by decide)).1

/-- C6 counterexample: on the JS null value the normalizer raises a TypeError
instead of returning a ResearchResult, so it does not return a non-empty overview
for every raw input including null, refuting the claim as stated. -/
theorem normalizer_rejects_null :
    Research.returnsNonemptyOverview
        (ResearchA.ensureValidResearchOutput Research.RawInput.null) = false ∧
    Research.returnsNonemptyOverview
        (ResearchB.ensureValidResearchOutput Research.RawInput.null) = false ∧
    ResearchA.ensureValidResearchOutput Research.RawInput.null
        = Except.error "TypeError: Cannot read properties of null" ∧
    ResearchB.ensureValidResearchOutput Research.RawInput.null
        = Except.error "TypeError: Cannot read properties of null" :=
  ⟨rfl, rfl, rfl, rfl⟩

/-- C6 amended: for every non-null raw input — any object, including the empty one,
and any plain string — both ensureValidResearchOutput variants return a
ResearchResult whose overview is a non-empty string, substituting their literal
fallback when the raw data carries no overview. -/
theorem normalizer_nonempty_overview :
    ∀ (r : Research.RawInput), r ≠ Research.RawInput.null →
      Research.returnsNonemptyOverview (ResearchA.ensureValidResearchOutput r) = true ∧
      Research.returnsNonemptyOverview (ResearchB.ensureValidResearchOutput r) = true := by
  intro r hr
  cases r with
  | null => exact absurd rfl hr
  | str s => exact ⟨rfl, rfl⟩
  | obj d =>
    constructor
    · simp only [ResearchA.ensureValidResearchOutput, Research.returnsNonemptyOverview]
      rw [jsOrStr_ne_empty d.overview ResearchA.fallbackOverview (by decide)]
      rfl
    · simp only [ResearchB.ensureValidResearchOutput, Research.returnsNonemptyOverview]
      rw [jsOrStr_ne_empty d.overview "No overview available." (by decide)]
      rfl

/-- Witness for C6: the empty object normalizes to a non-empty overview. -/
theorem normalizer_nonempty_overview_witness :
    Research.returnsNonemptyOverview
        (ResearchA.ensureValidResearchOutput (Research.RawInput.obj {})) = true ∧
    Research.returnsNonemptyOverview
        (ResearchB.ensureValidResearchOutput (Research.RawInput.obj {})) = true :=
  normalizer_nonempty_overview (Research.RawInput.obj {}) (by decide)

/-- C7 counterexample: a supplied sentiment object passes through both normalizer
variants unchanged — positive 150 stays 150 (not clamped to 100) and positive -5
stays -5 (not clamped to 0) — refuting the claim as stated. -/
theorem sentiment_not_clamped :
    Research.okSentimentPositive (ResearchA.ensureValidResearchOutput
        (Research.RawInput.obj { sentiment := some { positive := 150, count := none } }))
      = some 150 ∧
    Research.okSentimentPositive (ResearchB.ensureValidResearchOutput
        (Research.RawInput.obj { sentiment := some { positive := 150, count := none } }))
      = some 150 ∧
    Research.okSentimentPositive (ResearchA.ensureValidResearchOutput
        (Research.RawInput.obj { sentiment := some { positive := -5, count := none } }))
      = some (-5) ∧
    ¬((150 : Int) ≤ 100) ∧ ¬((0 : Int) ≤ -5) := by
  decide

/-- C7 amended: the normalizers never clamp: a present sentiment object is passed
through unchanged whatever its positive value, and only a missing or falsy
sentiment is replaced by the neutral default of 50. -/
theorem sentiment_passthrough :
    ∀ (d : Research.RawResearch) (s : Research.Sentiment),
      (d.sentiment = some s →
        Research.okSentimentPositive (ResearchA.ensureValidResearchOutput
            (Research.RawInput.obj d)) = some s.positive ∧
        Research.okSentimentPositive (ResearchB.ensureValidResearchOutput
            (Research.RawInput.obj d)) = some s.positive) ∧
      (d.sentiment = none →
        Research.okSentimentPositive (ResearchA.ensureValidResearchOutput
            (Research.RawInput.obj d)) = some 50 ∧
        Research.okSentimentPositive (ResearchB.ensureValidResearchOutput
            (Research.RawInput.obj d)) = some 50) := by
  intro d s
  constructor
  · intro h
    exact ⟨by simp [ResearchA.ensureValidResearchOutput, Research.okSentimentPositive, h],
           by simp [ResearchB.ensureValidResearchOutput, Research.okSentimentPositive, h]⟩
  · intro h
    exact ⟨by simp [ResearchA.ensureValidResearchOutput, Research.okSentimentPositive, h],
           by simp [ResearchB.ensureValidResearchOutput, Research.okSentimentPositive, h]⟩

/-- Witness for C7 amended: an out-of-range positive value of 150 is passed through. -/
theorem sentiment_passthrough_witness :
    Research.okSentimentPositive (ResearchA.ensureValidResearchOutput
        (Research.RawInput.obj { sentiment := some { positive := 150, count := none } }))
      = some (150 : Int) ∧
    Research.okSentimentPositive (ResearchB.ensureValidResearchOutput
        (Research.RawInput.obj { sentiment := some { positive := 150, count := none } }))
      = some (150 : Int) :=
  (sentiment_passthrough { sentiment := some { positive := 150, count := none } }
    { positive := 150, count := none }).1 rfl

/-- C8 counterexample: when the whole research chain fails, researchDapp returns
the literal fallback result, but its list fields are one-element placeholder
arrays, not empty arrays, refuting the claimed empty arrays. -/
theorem chain_fallback_arrays_not_empty :
    (DappRadar.researchDapp (Except.error "StrategyFailed")).features
        = ["Data retrieval failed"] ∧
    (DappRadar.researchDapp (Except.error "StrategyFailed")).features ≠ [] ∧
    (DappRadar.researchDapp (Except.error "StrategyFailed")).competitors ≠ [] ∧
    (DappRadar.researchDapp (Except.error "StrategyFailed")).strengths ≠ [] := by
  decide

/-- C8 amended: a failed research chain never propagates an exception to the
caller: researchDapp converts any chain error into its literal fallback
ResearchResult with a non-empty fallback overview and placeholder (not empty)
arrays, and performClientResearch with every stage failing returns an
error-message ResearchResponse instead of throwing. -/
theorem chain_degrades_without_throwing :
    ∀ (e : String),
      DappRadar.researchDapp (Except.error e) = DappRadar.getFallbackData ∧
      ¬(DappRadar.getFallbackData.overview = "") ∧
      (∀ (ea es et ed : String),
        OpenRouter.performClientResearch (Except.error ea) (Except.error es)
            (Except.error et) (Except.error ed)
          = { research := "Error performing research: " ++ ed ++
                "\n\nPlease check your API settings and try again.",
              structured := none }) := by
  intro e
  refine ⟨rfl, by decide, ?_⟩
  intro ea es et ed
  rfl

/-- C9 counterexample: a write whose remote backend call fails but whose local
fallback succeeds returns the very same unqualified success value true as a fully
successful write — the caller cannot distinguish the two, refuting the claim that
the remote failure is surfaced rather than reported as a silent success. -/
theorem remote_write_failure_reports_success :
    Metamask.saveFavoritesToMetaMask []
        (Except.error "StorageUnavailable") (Except.ok ()) = true ∧
    Metamask.saveFavoritesToMetaMask []
        (Except.error "StorageUnavailable") (Except.ok ())
      = Metamask.saveFavoritesToMetaMask [] (Except.ok ()) (Except.ok ()) :=
  ⟨rfl, rfl⟩

/-- C9 amended: saveFavoritesToMetaMask reports plain success whenever either the
remote write or the localStorage fallback succeeds — a remote failure with a
successful fallback yields the same bare true as a remote success, with no
warning in the return value — and reports failure only when both writes fail. -/
theorem save_favorites_success_reporting :
    ∀ (favorites : List FavoriteItem) (e e2 : String) (localW : Except String Unit),
      Metamask.saveFavoritesToMetaMask favorites (Except.error e) (Except.ok ()) = true ∧
      Metamask.saveFavoritesToMetaMask favorites (Except.error e) (Except.error e2) = false ∧
      Metamask.saveFavoritesToMetaMask favorites (Except.ok ()) localW = true := by
  intro favorites e e2 localW
  exact ⟨rfl, rfl, rfl⟩

/-- C10: fetchRandomDApp always returns a member of the static catalog; when the
requested category is truthy, not the literal All, and matched by at least one
catalog dApp, the result carries exactly that category (the pool is the matching
dApps); and when the category is absent, All, or matches nothing, the selection
pool is the full catalog. -/
theorem fetch_random_dapp_category :
    ∀ (category : Option String) (k : Nat),
      DappService.fetchRandomDApp category k ∈ DappService.dapps ∧
      (∀ c, category = some c → (c == "") = false → (c == "All") = false →
        DappService.dapps.any (fun d => d.category == c) = true →
        (DappService.fetchRandomDApp category k).category = c) ∧
      (∀ c, category = some c → DappService.dapps.any (fun d => d.category == c) = false →
        DappService.filteredDapps category = DappService.dapps) ∧
      (category = none → DappService.filteredDapps category = DappService.dapps) ∧
      (category = some "All" → DappService.filteredDapps category = DappService.dapps) := by
  intro category k
  refine ⟨filteredDapps_subset category _ (fetchRandomDApp_mem_pool category k),
    ?_, ?_, ?_, ?_⟩
  · intro c hcat h1 h2 hany
    subst hcat
    have hcond : (!(c == "") && !(c == "All")) = true := by rw [h1, h2]; rfl
    have hfbc : DappService.filteredByCategory (some c)
        = DappService.dapps.filter (fun d => d.category == c) := by
      rw [DappService.filteredByCategory, if_pos hcond]
    obtain ⟨d0, hd0, hp0⟩ := List.any_eq_true.mp hany
    have hne : DappService.filteredByCategory (some c) ≠ [] := by
      rw [hfbc]
      exact List.ne_nil_of_mem (List.mem_filter.mpr ⟨hd0, hp0⟩)
    have hie : (DappService.filteredByCategory (some c)).isEmpty = false := by
      cases hh : (DappService.filteredByCategory (some c)).isEmpty with
      | true => exact absurd (List.isEmpty_iff.mp hh) hne
      | false => rfl
    have hpool : DappService.filteredDapps (some c)
        = DappService.dapps.filter (fun d => d.category == c) := by
      rw [DappService.filteredDapps, hie, if_neg Bool.false_ne_true, hfbc]
    have hm := fetchRandomDApp_mem_pool (some c) k
    rw [hpool] at hm
    exact eq_of_beq (List.mem_filter.mp hm).2
  · intro c hcat hany
    subst hcat
    have hall : ∀ d ∈ DappService.dapps, ¬(d.category == c) = true := by
      intro d hd hcontra
      have h3 : DappService.dapps.any (fun d2 => d2.category == c) = true :=
        List.any_eq_true.mpr ⟨d, hd, hcontra⟩
      rw [hany] at h3
      exact Bool.false_ne_true h3
    cases hcond : (!(c == "") && !(c == "All")) with
    | true =>
      have hfbc : DappService.filteredByCategory (some c)
          = DappService.dapps.filter (fun d => d.category == c) := by
        rw [DappService.filteredByCategory, hcond, if_pos rfl]
      have hnil : DappService.filteredByCategory (some c) = [] := by
        rw [hfbc]
        exact List.filter_eq_nil_iff.mpr hall
      rw [DappService.filteredDapps, hnil]
      rfl
    | false =>
      have hfbc : DappService.filteredByCategory (some c) = DappService.dapps := by
        rw [DappService.filteredByCategory, hcond, if_neg Bool.false_ne_true]
      rw [DappService.filteredDapps, hfbc]
      simp
  · intro hcat; subst hcat; rfl
  · intro hcat; subst hcat; rfl

set_option maxRecDepth 4000 in
/-- Witness for C10: requesting the GameFi category yields a GameFi dApp. -/
theorem fetch_random_dapp_category_witness :
    (DappService.fetchRandomDApp (some "GameFi") 0).category = "GameFi" :=
  (fetch_random_dapp_category (some "GameFi") 0).2.1 "GameFi" rfl (by decide) (by decide)
    (by decide)
